import Mathlib

/-!
Shallow embedding of `src/elp_camera/uvc_camera.py` (class `ELPUVCCamera`).

The OpenCV capture handle is an external collaborator; it is modelled by a
time-indexed oracle `CapEnv`: every handle operation (acquire, release,
property get/set, frame read) consumes one tick of a global counter, and the
oracle decides the outcome of the operation performed at each tick.  This
leaves the handle's behaviour completely free (sets may silently no-op,
reads may fail at any time), which is exactly the adversarial model the
session code is written against.  Property values are modelled as rationals
(the Python code compares `float` values against the literals 0.1 and 0.01).

Each session method is translated into a function from an environment, a
start tick and a `Session` record to a result, the updated session, the
final tick and the list of handle operations performed (in order).
-/

namespace ELPCam

/-- Pixel formats of the `ELPUVCCamera.RESOLUTIONS` catalog. -/
inductive Fmt where
  | MJPEG
  | YUY2
  deriving DecidableEq, Repr

/-- One entry of the `RESOLUTIONS` class attribute. -/
structure ResEntry where
  width : Nat
  height : Nat
  format : Fmt
  fps : Nat
  deriving DecidableEq, Repr

/-- The `RESOLUTIONS` catalog, verbatim from the source (18 entries). -/
def RESOLUTIONS : List ResEntry := [
  ⟨4656, 3496, Fmt.MJPEG, 10⟩,
  ⟨4656, 3496, Fmt.YUY2, 1⟩,
  ⟨4208, 3120, Fmt.MJPEG, 10⟩,
  ⟨4208, 3120, Fmt.YUY2, 1⟩,
  ⟨4160, 3120, Fmt.MJPEG, 10⟩,
  ⟨4000, 3000, Fmt.MJPEG, 10⟩,
  ⟨3840, 2160, Fmt.MJPEG, 10⟩,
  ⟨3264, 2448, Fmt.MJPEG, 10⟩,
  ⟨2592, 1944, Fmt.MJPEG, 10⟩,
  ⟨2320, 1744, Fmt.MJPEG, 30⟩,
  ⟨2048, 1536, Fmt.MJPEG, 30⟩,
  ⟨1920, 1080, Fmt.MJPEG, 30⟩,
  ⟨1600, 1200, Fmt.MJPEG, 30⟩,
  ⟨1280, 960, Fmt.MJPEG, 30⟩,
  ⟨1280, 720, Fmt.MJPEG, 30⟩,
  ⟨1024, 768, Fmt.MJPEG, 30⟩,
  ⟨800, 600, Fmt.MJPEG, 30⟩,
  ⟨640, 480, Fmt.MJPEG, 30⟩]

/-- OpenCV `cv2.CAP_PROP_FRAME_WIDTH`. -/
def CAP_PROP_FRAME_WIDTH : Int := 3
/-- OpenCV `cv2.CAP_PROP_FRAME_HEIGHT`. -/
def CAP_PROP_FRAME_HEIGHT : Int := 4
/-- OpenCV `cv2.CAP_PROP_FPS`. -/
def CAP_PROP_FPS : Int := 5
/-- OpenCV `cv2.CAP_PROP_FOURCC`. -/
def CAP_PROP_FOURCC : Int := 6
/-- OpenCV `cv2.CAP_PROP_BRIGHTNESS`. -/
def CAP_PROP_BRIGHTNESS : Int := 10
/-- OpenCV `cv2.CAP_PROP_CONTRAST`. -/
def CAP_PROP_CONTRAST : Int := 11
/-- OpenCV `cv2.CAP_PROP_SATURATION`. -/
def CAP_PROP_SATURATION : Int := 12
/-- OpenCV `cv2.CAP_PROP_HUE`. -/
def CAP_PROP_HUE : Int := 13
/-- OpenCV `cv2.CAP_PROP_GAIN`. -/
def CAP_PROP_GAIN : Int := 14
/-- OpenCV `cv2.CAP_PROP_EXPOSURE`. -/
def CAP_PROP_EXPOSURE : Int := 15
/-- OpenCV `cv2.CAP_PROP_SHARPNESS`. -/
def CAP_PROP_SHARPNESS : Int := 20
/-- OpenCV `cv2.CAP_PROP_AUTO_EXPOSURE`. -/
def CAP_PROP_AUTO_EXPOSURE : Int := 21
/-- OpenCV `cv2.CAP_PROP_GAMMA`. -/
def CAP_PROP_GAMMA : Int := 22
/-- OpenCV `cv2.CAP_PROP_TEMPERATURE`. -/
def CAP_PROP_TEMPERATURE : Int := 23
/-- OpenCV `cv2.CAP_PROP_ZOOM`. -/
def CAP_PROP_ZOOM : Int := 27
/-- OpenCV `cv2.CAP_PROP_FOCUS`. -/
def CAP_PROP_FOCUS : Int := 28
/-- OpenCV `cv2.CAP_PROP_BACKLIGHT`. -/
def CAP_PROP_BACKLIGHT : Int := 32
/-- OpenCV `cv2.CAP_PROP_AUTOFOCUS`. -/
def CAP_PROP_AUTOFOCUS : Int := 39

/-- Numeric code of `cv2.VideoWriter_fourcc(*"MJPG")`. -/
def fourccMJPG : Int := 77 + 74 * 256 + 80 * 65536 + 71 * 16777216
/-- Numeric code of `cv2.VideoWriter_fourcc(*"YUY2")`. -/
def fourccYUY2 : Int := 89 + 85 * 256 + 89 * 65536 + 50 * 16777216

/-- Fourcc code sent to `cap.set(cv2.CAP_PROP_FOURCC, ...)` for a format. -/
def fourccCode : Fmt → Int
  | Fmt.MJPEG => fourccMJPG
  | Fmt.YUY2 => fourccYUY2

/-- A handle operation, recorded in execution order.  `acquire` is a
`cv2.VideoCapture(idx)` construction, `release` a `cap.release()`,
`get`/`set` are property accesses and `read` is `cap.read()`. -/
inductive CapOp where
  | acquire (idx : Int)
  | release
  | get (pid : Int)
  | set (pid : Int) (v : ℚ)
  | read
  deriving DecidableEq, Repr

/-- An acquired `cv2.VideoCapture` object: the tick it was acquired at
(serving as a fresh identity) and the stable result of `isOpened()`. -/
structure Handle where
  hid : Nat
  opened : Bool
  deriving DecidableEq, Repr

/-- Time-indexed oracle for the capture handle's behaviour.  The operation
executed at tick `t` gets its outcome from the oracle at `t`. -/
structure CapEnv where
  openOk : Nat → Bool
  readOk : Nat → Bool
  frameW : Nat → Nat
  frameH : Nat → Nat
  getVal : Nat → Int → ℚ
  setOk : Nat → Int → ℚ → Bool

/-- The mutable state of an `ELPUVCCamera` instance. -/
structure Session where
  camera_index : Option Int
  cap : Option Handle
  current_format : Option Fmt
  current_resolution : Option (Int × Int × Int)
  current_resolution_index : Option Int
  recording : Bool
  deriving DecidableEq, Repr

/-- Result of a session method: return value, updated session, final tick
and the handle operations performed. -/
structure OpRes (α : Type) where
  val : α
  s : Session
  t : Nat
  tr : List CapOp
  deriving DecidableEq, Repr

/-- Python `int(...)` applied to a float property value: truncation toward
zero. -/
def pyInt (q : ℚ) : Int := if q < 0 then -((-q).floor) else q.floor

/-- Python `abs(...)` on a property value. -/
def pyAbs (q : ℚ) : ℚ := if q < 0 then -q else q

/-- Python `str.upper()` on an (ASCII) property name. -/
def pyUpper (s : String) : String := ⟨s.data.map Char.toUpper⟩

/-- `ELPUVCCamera.close`: release the handle if present and set `cap` to
`None`.  Nothing else is touched. -/
def close (t : Nat) (s : Session) : OpRes Unit :=
  match s.cap with
  | none => ⟨(), s, t, []⟩
  | some _ => ⟨(), { s with cap := none }, t + 1, [CapOp.release]⟩

/-- `ELPUVCCamera.get_frame`: `(False, None)` when `cap` is `None`,
otherwise the result of `cap.read()`. -/
def get_frame (env : CapEnv) (t : Nat) (s : Session) :
    OpRes (Bool × Option (Nat × Nat)) :=
  match s.cap with
  | none => ⟨(false, none), s, t, []⟩
  | some _ =>
    if env.readOk t then
      ⟨(true, some (env.frameW t, env.frameH t)), s, t + 1, [CapOp.read]⟩
    else ⟨(false, none), s, t + 1, [CapOp.read]⟩

/-- The `property_map` dictionary of `set_camera_property`. -/
def property_map (nm : String) : Option Int :=
  match nm with
  | "BRIGHTNESS" => some CAP_PROP_BRIGHTNESS
  | "CONTRAST" => some CAP_PROP_CONTRAST
  | "SATURATION" => some CAP_PROP_SATURATION
  | "HUE" => some CAP_PROP_HUE
  | "GAIN" => some CAP_PROP_GAIN
  | "EXPOSURE" => some CAP_PROP_EXPOSURE
  | "AUTO_EXPOSURE" => some CAP_PROP_AUTO_EXPOSURE
  | "GAMMA" => some CAP_PROP_GAMMA
  | "BACKLIGHT" => some CAP_PROP_BACKLIGHT
  | "TEMPERATURE" => some CAP_PROP_TEMPERATURE
  | "ZOOM" => some CAP_PROP_ZOOM
  | "FOCUS" => some CAP_PROP_FOCUS
  | "AUTOFOCUS" => some CAP_PROP_AUTOFOCUS
  | "SHARPNESS" => some CAP_PROP_SHARPNESS
  | _ => none

/-- The `alternative_property_map` dictionary: fallback identifiers, in
registry order; empty for names without an entry. -/
def alternative_property_map (nm : String) : List Int :=
  match nm with
  | "BRIGHTNESS" => [10, 1, 101]
  | "CONTRAST" => [11, 2, 102]
  | "SATURATION" => [12, 3, 103]
  | "HUE" => [13, 4, 104]
  | "GAIN" => [14, 5, 105, 81]
  | "EXPOSURE" => [15, 6, 106, 4, 204]
  | "AUTO_EXPOSURE" => [16, 21, 39, 1024]
  | _ => []

/-- The `auto_exp_ids` list of the exposure special case:
`[cv2.CAP_PROP_AUTO_EXPOSURE, 21, 39, 1024]`. -/
def auto_exp_ids : List Int := [CAP_PROP_AUTO_EXPOSURE, 21, 39, 1024]

/-- The fallback loop of `set_camera_property`: for each alternative id,
read its current value, attempt the set, read back; stop with success at
the first id whose set call returned `True` and whose readback moved by
more than 0.01 from its own pre-set value. -/
def try_alternative_ids (env : CapEnv) (value : ℚ) :
    List Int → Nat → Bool × Nat × List CapOp
  | [], t => (false, t, [])
  | a :: rest, t =>
    if env.setOk (t + 1) a value = true ∧
        (1 : ℚ)/100 < pyAbs (env.getVal (t + 2) a - env.getVal t a) then
      (true, t + 3, [CapOp.get a, CapOp.set a value, CapOp.get a])
    else
      let r := try_alternative_ids env value rest (t + 3)
      (r.1, r.2.1, [CapOp.get a, CapOp.set a value, CapOp.get a] ++ r.2.2)

/-- `ELPUVCCamera.set_camera_property`, faithful to the source: closed or
unopened session returns `False`; unknown name returns `False`; primary
attempt succeeds when the set call reported success and the readback is
within 0.1 of the requested value; otherwise the fallback chain runs and,
for the exposure property, the auto-exposure manual-mode retry. -/
def set_camera_property (env : CapEnv) (t : Nat) (s : Session)
    (prop_name : String) (value : ℚ) : OpRes Bool :=
  match s.cap with
  | none => ⟨false, s, t, []⟩
  | some h =>
    if h.opened = false then ⟨false, s, t, []⟩
    else
      match property_map (pyUpper prop_name) with
      | none => ⟨false, s, t, []⟩
      | some prop_id =>
        let initial_value := env.getVal t prop_id
        let result := env.setOk (t + 1) prop_id value
        let new_value := env.getVal (t + 2) prop_id
        let tr0 : List CapOp :=
          [CapOp.get prop_id, CapOp.set prop_id value, CapOp.get prop_id]
        if result = true ∧ pyAbs (new_value - value) < (1 : ℚ)/10 then
          ⟨true, s, t + 3, tr0⟩
        else
          let r := try_alternative_ids env value
            (alternative_property_map (pyUpper prop_name)) (t + 3)
          if r.1 = true then ⟨true, s, r.2.1, tr0 ++ r.2.2⟩
          else if pyUpper prop_name = "EXPOSURE" then
            let trA : List CapOp := auto_exp_ids.map fun i => CapOp.set i 0
            let retry_result := env.setOk (r.2.1 + 4) prop_id value
            let retry_value := env.getVal (r.2.1 + 5) prop_id
            let trR : List CapOp :=
              tr0 ++ r.2.2 ++ trA ++ [CapOp.set prop_id value, CapOp.get prop_id]
            if retry_result = true ∧
                (1 : ℚ)/100 < pyAbs (retry_value - initial_value) then
              ⟨true, s, r.2.1 + 6, trR⟩
            else ⟨false, s, r.2.1 + 6, trR⟩
          else ⟨false, s, r.2.1, tr0 ++ r.2.2⟩

/-- One iteration of the `for i in range(3)` probe loop inside
`find_elp_camera_index`: open a throwaway capture at index `i`; if it is
opened, read one frame and release it. -/
def probe_camera (env : CapEnv) (t : Nat) (i : Int) : Nat × List CapOp :=
  if env.openOk t then (t + 3, [CapOp.acquire i, CapOp.read, CapOp.release])
  else (t + 1, [CapOp.acquire i])

/-- The body of `ELPUVCCamera.list_devices` for a list of candidate
indices: open each; if opened, read; if the read succeeded, set a high
resolution, read again and record the index as a device; release whenever
the capture was opened. -/
def list_devices_aux (env : CapEnv) :
    List Int → Nat → List Int × Nat × List CapOp
  | [], t => ([], t, [])
  | i :: rest, t =>
    if env.openOk t then
      if env.readOk (t + 1) then
        match list_devices_aux env rest (t + 6) with
        | (ds, t2, tr2) =>
          (i :: ds, t2,
            [CapOp.acquire i, CapOp.read,
              CapOp.set CAP_PROP_FRAME_WIDTH 2048,
              CapOp.set CAP_PROP_FRAME_HEIGHT 1536,
              CapOp.read, CapOp.release] ++ tr2)
      else
        match list_devices_aux env rest (t + 3) with
        | (ds, t2, tr2) =>
          (ds, t2, [CapOp.acquire i, CapOp.read, CapOp.release] ++ tr2)
    else
      match list_devices_aux env rest (t + 1) with
      | (ds, t2, tr2) => (ds, t2, [CapOp.acquire i] ++ tr2)

/-- `ELPUVCCamera.list_devices`: scans camera indices 0 through 9. -/
def list_devices (env : CapEnv) (t : Nat) : List Int × Nat × List CapOp :=
  list_devices_aux env ((List.range 10).map fun i => (i : Int)) t

/-- `ELPUVCCamera.find_elp_camera_index`: check index 2 first and return 2
when it opens and yields a frame; otherwise probe indices 0 and 1, run
`list_devices`, and return `None` (every remaining path of the source
returns `None`). -/
def find_elp_camera_index (env : CapEnv) (t : Nat) :
    Option Int × Nat × List CapOp :=
  if env.openOk t then
    if env.readOk (t + 1) then
      (some 2, t + 3, [CapOp.acquire 2, CapOp.read, CapOp.release])
    else
      match probe_camera env (t + 3) 0 with
      | (ta, tra) =>
        match probe_camera env ta 1 with
        | (tb, trb) =>
          match list_devices env tb with
          | (_, tc, trc) =>
            (none, tc,
              [CapOp.acquire 2, CapOp.read, CapOp.release] ++ tra ++ trb ++ trc)
  else
    match probe_camera env (t + 1) 0 with
    | (ta, tra) =>
      match probe_camera env ta 1 with
      | (tb, trb) =>
        match list_devices env tb with
        | (_, tc, trc) =>
          (none, tc, [CapOp.acquire 2] ++ tra ++ trb ++ trc)

/-- The recording-mode stability loop of `ELPUVCCamera.open`:
`for _ in range(5): ret, _ = self.cap.read(); if not ret: break`.  Returns
whether all reads succeeded, plus tick and trace. -/
def stability_loop (env : CapEnv) : Nat → Nat → Bool × Nat × List CapOp
  | t, 0 => (true, t, [])
  | t, Nat.succ n =>
    if env.readOk t then
      let r := stability_loop env (t + 1) n
      (r.1, r.2.1, CapOp.read :: r.2.2)
    else (false, t + 1, [CapOp.read])

/-- The `try:` body of `ELPUVCCamera.open`, after the camera index has been
resolved to `ci`: acquire the capture, take a pre-settings test frame,
apply fourcc, fps, width and height, read back the reported values, pull
the validation frame (whose dimensions override the reported ones when
they differ), and in recording mode run the five-frame stability loop.
Every failure closes the session (except a failed `isOpened`, where the
source leaves the unopened capture in `self.cap`). -/
def open_core (env : CapEnv) (t : Nat) (s : Session) (ci : Int)
    (ridx : Nat) (recording_mode : Bool) : OpRes Bool :=
  let h : Handle := ⟨t, env.openOk t⟩
  let s2 := { s with cap := some h }
  if h.opened = false then ⟨false, s2, t + 1, [CapOp.acquire ci]⟩
  else
    let res := RESOLUTIONS.getD ridx ⟨0, 0, Fmt.MJPEG, 0⟩
    if env.readOk (t + 1) = false then
      ⟨false, { s2 with cap := none }, t + 3,
        [CapOp.acquire ci, CapOp.read, CapOp.release]⟩
    else
      let aw := pyInt (env.getVal (t + 6) CAP_PROP_FRAME_WIDTH)
      let ah := pyInt (env.getVal (t + 7) CAP_PROP_FRAME_HEIGHT)
      let afps := pyInt (env.getVal (t + 8) CAP_PROP_FPS)
      let trSet : List CapOp :=
        [CapOp.acquire ci, CapOp.read,
          CapOp.set CAP_PROP_FOURCC ((fourccCode res.format : Int) : ℚ),
          CapOp.set CAP_PROP_FPS (res.fps : ℚ),
          CapOp.set CAP_PROP_FRAME_WIDTH (res.width : ℚ),
          CapOp.set CAP_PROP_FRAME_HEIGHT (res.height : ℚ),
          CapOp.get CAP_PROP_FRAME_WIDTH, CapOp.get CAP_PROP_FRAME_HEIGHT,
          CapOp.get CAP_PROP_FPS]
      if env.readOk (t + 9) = false then
        ⟨false, { s2 with cap := none }, t + 11,
          trSet ++ [CapOp.read, CapOp.release]⟩
      else
        let fw := env.frameW (t + 9)
        let fh := env.frameH (t + 9)
        let s3 := { s2 with current_resolution := some (aw, ah, afps),
                            current_format := some res.format }
        let s4 := if (fw : Int) ≠ aw ∨ (fh : Int) ≠ ah then
            { s3 with current_resolution := some ((fw : Int), (fh : Int), afps) }
          else s3
        if recording_mode then
          let r := stability_loop env (t + 10) 5
          if r.1 then ⟨true, s4, r.2.1, trSet ++ [CapOp.read] ++ r.2.2⟩
          else ⟨false, { s4 with cap := none }, r.2.1 + 1,
            trSet ++ [CapOp.read] ++ r.2.2 ++ [CapOp.release]⟩
        else ⟨true, s4, t + 10, trSet ++ [CapOp.read]⟩

/-- `ELPUVCCamera.open` from the `self.close()` call onward: close any
existing capture, then run `open_core` with the session's camera index.
When the camera index is `None` (with `force_camera_index` set),
`cv2.VideoCapture(None)` raises; the `except` clause closes and returns
`False`, which is what the `none` branch models. -/
def open_with_index (env : CapEnv) (t : Nat) (s : Session) (ridx : Nat)
    (recording_mode : Bool) : OpRes Bool :=
  let c := close t s
  match c.s.camera_index with
  | none => ⟨false, c.s, c.t, c.tr⟩
  | some ci =>
    let r := open_core env c.t c.s ci ridx recording_mode
    ⟨r.val, r.s, r.t, c.tr ++ r.tr⟩

/-- `ELPUVCCamera.open`: bounds-check the resolution index, store it in
`current_resolution_index`, auto-detect the camera index when it is unset
and `force_camera_index` is false, then close and reopen the capture. -/
def open_cam (env : CapEnv) (t : Nat) (s : Session) (resolution_index : Int)
    (force_camera_index recording_mode : Bool) : OpRes Bool :=
  if resolution_index < 0 ∨ (RESOLUTIONS.length : Int) ≤ resolution_index then
    ⟨false, s, t, []⟩
  else
    let s1 := { s with current_resolution_index := some resolution_index }
    if s1.camera_index = none ∧ force_camera_index = false then
      let f := find_elp_camera_index env t
      let s2 := { s1 with camera_index := f.1 }
      match f.1 with
      | none => ⟨false, s2, f.2.1, f.2.2⟩
      | some _ =>
        let r := open_with_index env f.2.1 s2 resolution_index.toNat recording_mode
        ⟨r.val, r.s, r.t, f.2.2 ++ r.tr⟩
    else open_with_index env t s1 resolution_index.toNat recording_mode

/-- Resolution-index determination at the top of `ELPUVCCamera.restart`:
a caller-supplied index wins, else the session's
`current_resolution_index`, else the default index 11. -/
def restart_index (resolution_index : Option Int) (cur : Option Int) : Int :=
  match resolution_index with
  | some i => i
  | none =>
    match cur with
    | some i => i
    | none => 11

/-- One cycle of the hard-reset pre-sequence of `restart`: throwaway
capture at the saved index; when opened, set 640x480, read a frame and
release. -/
def hard_reset_cycle (env : CapEnv) (t : Nat) (ci : Int) : Nat × List CapOp :=
  if env.openOk t then
    (t + 5, [CapOp.acquire ci, CapOp.set CAP_PROP_FRAME_WIDTH 640,
      CapOp.set CAP_PROP_FRAME_HEIGHT 480, CapOp.read, CapOp.release])
  else (t + 1, [CapOp.acquire ci])

/-- The intermediate-resolution throwaway open performed before attempts
2 and 3 when `hard_reset` is set: 640x480 plus MJPG fourcc, one read,
release. -/
def intermediate_cycle (env : CapEnv) (t : Nat) (ci : Int) : Nat × List CapOp :=
  if env.openOk t then
    (t + 6, [CapOp.acquire ci, CapOp.set CAP_PROP_FRAME_WIDTH 640,
      CapOp.set CAP_PROP_FRAME_HEIGHT 480,
      CapOp.set CAP_PROP_FOURCC ((fourccMJPG : Int) : ℚ),
      CapOp.read, CapOp.release])
  else (t + 1, [CapOp.acquire ci])

/-- The `for attempt in range(1, max_attempts + 1)` loop of `restart`.
`fuel` counts the remaining attempts, `first` whether this is attempt 1
(the intermediate cycle runs only on later attempts under `hard_reset`).
`Except.error` models the uncaught `TypeError` of
`cv2.VideoCapture(None)` when the saved camera index is `None`. -/
def restart_loop (env : CapEnv) (saved : Option Int) (ri : Int)
    (recording_mode hard_reset : Bool) :
    Nat → Bool → Nat → Session → Except Unit (Bool × Session × Nat × List CapOp)
  | 0, _, t, s => Except.ok (false, s, t, [])
  | Nat.succ n, first, t, s =>
    let s0 := { s with camera_index := saved }
    if hard_reset = true ∧ first = false then
      match saved with
      | none => Except.error ()
      | some ci =>
        let c := intermediate_cycle env t ci
        let r := open_cam env c.1 s0 ri true recording_mode
        if r.val then Except.ok (true, r.s, r.t, c.2 ++ r.tr)
        else
          match restart_loop env saved ri recording_mode hard_reset n false r.t r.s with
          | Except.error e => Except.error e
          | Except.ok q => Except.ok (q.1, q.2.1, q.2.2.1, c.2 ++ r.tr ++ q.2.2.2)
    else
      let r := open_cam env t s0 ri true recording_mode
      if r.val then Except.ok (true, r.s, r.t, r.tr)
      else
        match restart_loop env saved ri recording_mode hard_reset n false r.t r.s with
        | Except.error e => Except.error e
        | Except.ok q => Except.ok (q.1, q.2.1, q.2.2.1, r.tr ++ q.2.2.2)

/-- `ELPUVCCamera.restart`: save the camera index, determine the target
resolution index, close, optionally run the two hard-reset cycles, run the
three-attempt reopen loop, and finally, when the target index is not 11
and all attempts failed, make one last attempt at resolution index 11. -/
def restart (env : CapEnv) (t : Nat) (s : Session)
    (resolution_index : Option Int) (recording_mode hard_reset : Bool) :
    Except Unit (Bool × Session × Nat × List CapOp) :=
  let saved := s.camera_index
  let ri := restart_index resolution_index s.current_resolution_index
  let c := close t s
  let pre : Except Unit (Nat × List CapOp) :=
    if hard_reset then
      match saved with
      | none => Except.error ()
      | some ci =>
        let a := hard_reset_cycle env c.t ci
        let b := hard_reset_cycle env a.1 ci
        Except.ok (b.1, a.2 ++ b.2)
    else Except.ok (c.t, [])
  match pre with
  | Except.error e => Except.error e
  | Except.ok p =>
    match restart_loop env saved ri recording_mode hard_reset 3 true p.1 c.s with
    | Except.error e => Except.error e
    | Except.ok q =>
      if q.1 then Except.ok (true, q.2.1, q.2.2.1, c.tr ++ p.2 ++ q.2.2.2)
      else if ri ≠ 11 then
        let r := open_cam env q.2.2.1 q.2.1 11 true recording_mode
        Except.ok (r.val, r.s, r.t, c.tr ++ p.2 ++ q.2.2.2 ++ r.tr)
      else Except.ok (false, q.2.1, q.2.2.1, c.tr ++ p.2 ++ q.2.2.2)

/-- Number of `acquire` operations in a trace: how many times a
`cv2.VideoCapture` construction was attempted. -/
def acquire_count (tr : List CapOp) : Nat :=
  tr.countP fun op => match op with
    | CapOp.acquire _ => true
    | _ => false

/-- A single fallback attempt of the chain, scheduled at tick `τ`:
the set call at `τ + 1` reported success and the readback at `τ + 2`
moved by more than 0.01 from the pre-set read at `τ`.  This is exactly
the acceptance test of `try_alternative_ids` for the identifier whose
attempt starts at tick `τ`. -/
def alt_attempt_ok (env : CapEnv) (value : ℚ) (a : Int) (τ : Nat) : Prop :=
  env.setOk (τ + 1) a value = true ∧
    (1 : ℚ)/100 < pyAbs (env.getVal (τ + 2) a - env.getVal τ a)

instance (env : CapEnv) (value : ℚ) (a : Int) (τ : Nat) :
    Decidable (alt_attempt_ok env value a τ) :=
  inferInstanceAs (Decidable (_ ∧ _))

/-- The string literal used by theorems quantifying over the GAIN name. -/
def gainName : String := "GAIN"

/-- The string literal used by theorems about the exposure special case. -/
def exposureName : String := "EXPOSURE"

/-- Environment whose handle refuses everything. -/
def envZero : CapEnv :=
  ⟨fun _ => false, fun _ => false, fun _ => 0, fun _ => 0,
    fun _ _ => 0, fun _ _ _ => false⟩

/-- Cooperative handle: opens, reads 1280x720 frames, but reports
1920x1080 at 30 fps through property gets; all sets report success. -/
def envOk : CapEnv :=
  ⟨fun _ => true, fun _ => true, fun _ => 1280, fun _ => 720,
    fun _ pid => if pid = 3 then 1920 else if pid = 4 then 1080 else 30,
    fun _ _ _ => true⟩

/-- Handle whose set calls all report success but whose property values
never move: every get returns 5. -/
def envNoChange : CapEnv :=
  ⟨fun _ => true, fun _ => true, fun _ => 0, fun _ => 0,
    fun _ _ => 5, fun _ _ _ => true⟩

/-- Handle for which the primary set of a property visibly lands: the
readback at tick 2 returns 7, everything else 0; sets report success. -/
def envPrimaryLands : CapEnv :=
  ⟨fun _ => true, fun _ => true, fun _ => 0, fun _ => 0,
    fun t _ => if t = 2 then 7 else 0, fun _ _ _ => true⟩

/-- Handle where the set calls at ticks 1 (primary) and 4 (first
fallback) return failure, yet the first fallback's readback at tick 5
shows a changed value (1 instead of 0). -/
def envAltNoSet : CapEnv :=
  ⟨fun _ => true, fun _ => true, fun _ => 0, fun _ => 0,
    fun t _ => if t = 5 then 1 else 0,
    fun t _ _ => decide (¬(t = 1 ∨ t = 4))⟩

/-- Handle where only the second fallback identifier shows a change: the
readback at tick 8 returns 3, every other get returns 0; all sets report
success. -/
def envAltSecond : CapEnv :=
  ⟨fun _ => true, fun _ => true, fun _ => 0, fun _ => 0,
    fun t _ => if t = 8 then 3 else 0, fun _ _ _ => true⟩

/-- Handle where nothing changes until the post-retry exposure readback
at tick 23, which returns 5; all sets report success. -/
def envExpRetry : CapEnv :=
  ⟨fun _ => true, fun _ => true, fun _ => 0, fun _ => 0,
    fun t _ => if t = 23 then 5 else 0, fun _ _ _ => true⟩

/-- Handle whose frame reads succeed except at tick 14 — the fifth
stability-check read of an `open` started at tick 0 on a capless
session. -/
def envRead14Fails : CapEnv :=
  ⟨fun _ => true, fun t => decide (t ≠ 14), fun _ => 1920, fun _ => 1080,
    fun _ pid => if pid = 3 then 1920 else if pid = 4 then 1080 else 30,
    fun _ _ _ => true⟩

/-- Handle whose frame reads succeed except at tick 12 — the third
stability-check read of an `open_core` started at tick 0. -/
def envRead12Fails : CapEnv :=
  ⟨fun _ => true, fun t => decide (t ≠ 12), fun _ => 1920, fun _ => 1080,
    fun _ pid => if pid = 3 then 1920 else if pid = 4 then 1080 else 30,
    fun _ _ _ => true⟩

/-- A session that was never opened: camera index resolved to 0, no
capture handle, no derived state. -/
def sFresh : Session := ⟨some 0, none, none, none, none, false⟩

/-- A session holding an opened capture handle but no derived state. -/
def sOpen0 : Session := ⟨some 0, some ⟨0, true⟩, none, none, none, false⟩

/-- An open session with derived fields populated, as after a successful
`open` at resolution index 11. -/
def sFull : Session :=
  ⟨some 0, some ⟨0, true⟩, some Fmt.MJPEG, some (1920, 1080, 30), some 11, false⟩

/-- A closed session remembering resolution index 11. -/
def sIdx11 : Session := ⟨some 0, none, none, none, some 11, false⟩

/-- A closed session remembering resolution index 5. -/
def sIdx5 : Session := ⟨some 0, none, none, none, some 5, false⟩

/-- The handle operations of a run of the fallback chain that attempted
every identifier of the list: get, set, get for each. -/
def alt_ops (value : ℚ) : List Int → List CapOp
  | [] => []
  | a :: rest => [CapOp.get a, CapOp.set a value, CapOp.get a] ++ alt_ops value rest

theorem try_alternative_ids_val (env : CapEnv) (v : ℚ) :
    ∀ (A : List Int) (t : Nat),
      (try_alternative_ids env v A t).1 = true ↔
        ∃ i, i < A.length ∧ alt_attempt_ok env v (A.getD i 0) (t + 3 * i) := by
  intro A
  induction A with
  | nil =>
    intro t
    simp [try_alternative_ids]
  | cons a rest ih =>
    intro t
    by_cases hc : env.setOk (t + 1) a v = true ∧
        (1 : ℚ)/100 < pyAbs (env.getVal (t + 2) a - env.getVal t a)
    · simp only [try_alternative_ids, if_pos hc]
      constructor
      · intro _
        refine ⟨0, by simp, ?_⟩
        simpa [alt_attempt_ok] using hc
      · intro _
        trivial
    · simp only [try_alternative_ids, if_neg hc]
      rw [ih (t + 3)]
      constructor
      · rintro ⟨i, hi, hok⟩
        refine ⟨i + 1, by simpa using Nat.succ_lt_succ hi, ?_⟩
        have harith : t + 3 * (i + 1) = t + 3 + 3 * i := by ring
        rw [List.getD_cons_succ, harith]
        exact hok
      · rintro ⟨i, hi, hok⟩
        cases i with
        | zero =>
          exfalso
          apply hc
          simpa [alt_attempt_ok] using hok
        | succ j =>
          refine ⟨j, by simpa using Nat.lt_of_succ_lt_succ hi, ?_⟩
          rw [List.getD_cons_succ] at hok
          have harith : t + 3 * (j + 1) = t + 3 + 3 * j := by ring
          rw [harith] at hok
          exact hok

theorem try_alternative_ids_false_t (env : CapEnv) (v : ℚ) :
    ∀ (A : List Int) (t : Nat), (try_alternative_ids env v A t).1 = false →
      (try_alternative_ids env v A t).2.1 = t + 3 * A.length := by
  intro A
  induction A with
  | nil =>
    intro t _
    simp [try_alternative_ids]
  | cons a rest ih =>
    intro t h
    by_cases hc : env.setOk (t + 1) a v = true ∧
        (1 : ℚ)/100 < pyAbs (env.getVal (t + 2) a - env.getVal t a)
    · simp only [try_alternative_ids, if_pos hc] at h
      exact absurd h (by simp)
    · simp only [try_alternative_ids, if_neg hc] at h ⊢
      rw [ih (t + 3) h]
      simp only [List.length_cons]
      ring

theorem try_alternative_ids_false_tr (env : CapEnv) (v : ℚ) :
    ∀ (A : List Int) (t : Nat), (try_alternative_ids env v A t).1 = false →
      (try_alternative_ids env v A t).2.2 = alt_ops v A := by
  intro A
  induction A with
  | nil =>
    intro t _
    simp [try_alternative_ids, alt_ops]
  | cons a rest ih =>
    intro t h
    by_cases hc : env.setOk (t + 1) a v = true ∧
        (1 : ℚ)/100 < pyAbs (env.getVal (t + 2) a - env.getVal t a)
    · simp only [try_alternative_ids, if_pos hc] at h
      exact absurd h (by simp)
    · simp only [try_alternative_ids, if_neg hc] at h ⊢
      rw [ih (t + 3) h]
      simp [alt_ops]

theorem try_alternative_ids_first (env : CapEnv) (v : ℚ) :
    ∀ (A : List Int) (t : Nat), (try_alternative_ids env v A t).1 = true →
      ∃ k, k < A.length ∧ alt_attempt_ok env v (A.getD k 0) (t + 3 * k) ∧
        (∀ j, j < k → ¬ alt_attempt_ok env v (A.getD j 0) (t + 3 * j)) ∧
        (try_alternative_ids env v A t).2.1 = t + 3 * (k + 1) := by
  intro A
  induction A with
  | nil =>
    intro t h
    exact absurd h (by simp [try_alternative_ids])
  | cons a rest ih =>
    intro t h
    by_cases hc : env.setOk (t + 1) a v = true ∧
        (1 : ℚ)/100 < pyAbs (env.getVal (t + 2) a - env.getVal t a)
    · refine ⟨0, by simp, by simpa [alt_attempt_ok] using hc, by omega, ?_⟩
      simp only [try_alternative_ids, if_pos hc]
    · simp only [try_alternative_ids, if_neg hc] at h ⊢
      obtain ⟨k, hk, hok, hmin, ht⟩ := ih (t + 3) h
      refine ⟨k + 1, by simpa using Nat.succ_lt_succ hk, ?_, ?_, ?_⟩
      · rw [List.getD_cons_succ]
        have harith : t + 3 * (k + 1) = t + 3 + 3 * k := by ring
        rw [harith]
        exact hok
      · intro j hj
        cases j with
        | zero =>
          intro hbad
          exact hc (by simpa [alt_attempt_ok] using hbad)
        | succ j' =>
          have hj' : j' < k := by omega
          intro hbad
          apply hmin j' hj'
          rw [List.getD_cons_succ] at hbad
          have harith : t + 3 * (j' + 1) = t + 3 + 3 * j' := by ring
          rw [harith] at hbad
          exact hbad
      · rw [ht]
        ring

theorem stability_loop_all_ok (env : CapEnv) :
    ∀ (n t : Nat), (∀ j, j < n → env.readOk (t + j) = true) →
      stability_loop env t n = (true, t + n, List.replicate n CapOp.read) := by
  intro n
  induction n with
  | zero =>
    intro t _
    simp [stability_loop]
  | succ m ih =>
    intro t h
    have h0 : env.readOk t = true := by simpa using h 0 (by omega)
    have hrest : ∀ j, j < m → env.readOk (t + 1 + j) = true := by
      intro j hj
      have := h (j + 1) (by omega)
      have harith : t + (j + 1) = t + 1 + j := by ring
      rwa [harith] at this
    simp only [stability_loop, if_pos h0, ih (t + 1) hrest, Prod.mk.injEq]
    refine ⟨trivial, by omega, by simp [List.replicate_succ]⟩

theorem stability_loop_fails (env : CapEnv) :
    ∀ (n t k : Nat), k < n → (∀ j, j < k → env.readOk (t + j) = true) →
      env.readOk (t + k) = false →
      stability_loop env t n = (false, t + k + 1, List.replicate (k + 1) CapOp.read) := by
  intro n
  induction n with
  | zero =>
    intro t k hk
    omega
  | succ m ih =>
    intro t k hk hpre hfail
    cases k with
    | zero =>
      have h0 : env.readOk t = false := by simpa using hfail
      simp [stability_loop, h0]
    | succ k' =>
      have h0 : env.readOk t = true := by simpa using hpre 0 (by omega)
      have hpre' : ∀ j, j < k' → env.readOk (t + 1 + j) = true := by
        intro j hj
        have := hpre (j + 1) (by omega)
        have harith : t + (j + 1) = t + 1 + j := by ring
        rwa [harith] at this
      have hfail' : env.readOk (t + 1 + k') = false := by
        have harith : t + (k' + 1) = t + 1 + k' := by ring
        rwa [harith] at hfail
      simp only [stability_loop, if_pos h0,
        ih (t + 1) k' (by omega) hpre' hfail', Prod.mk.injEq]
      refine ⟨trivial, by omega, by simp [List.replicate_succ]⟩

theorem RESOLUTIONS_length : RESOLUTIONS.length = 18 := rfl

theorem open_core_keeps_resolution_index (env : CapEnv) (t : Nat) (s : Session)
    (ci : Int) (ridx : Nat) (rmode : Bool) :
    (open_core env t s ci ridx rmode).s.current_resolution_index =
      s.current_resolution_index := by
  unfold open_core
  cases hopen : env.openOk t <;> cases hr1 : env.readOk (t + 1) <;>
    cases hr9 : env.readOk (t + 9) <;> cases rmode <;>
      simp only [hopen, hr1, hr9] <;> (repeat' split) <;> simp

theorem open_core_keeps_camera_index (env : CapEnv) (t : Nat) (s : Session)
    (ci : Int) (ridx : Nat) (rmode : Bool) :
    (open_core env t s ci ridx rmode).s.camera_index = s.camera_index := by
  unfold open_core
  cases hopen : env.openOk t <;> cases hr1 : env.readOk (t + 1) <;>
    cases hr9 : env.readOk (t + 9) <;> cases rmode <;>
      simp only [hopen, hr1, hr9] <;> (repeat' split) <;> simp

theorem open_core_tr_first (env : CapEnv) (t : Nat) (s : Session)
    (ci : Int) (ridx : Nat) (rmode : Bool) :
    (open_core env t s ci ridx rmode).tr.head? = some (CapOp.acquire ci) := by
  unfold open_core
  cases hopen : env.openOk t <;> cases hr1 : env.readOk (t + 1) <;>
    cases hr9 : env.readOk (t + 9) <;> cases rmode <;>
      simp only [hopen, hr1, hr9] <;> (repeat' split) <;> simp

theorem open_with_index_keeps_resolution_index (env : CapEnv) (t : Nat)
    (s : Session) (ridx : Nat) (rmode : Bool) :
    (open_with_index env t s ridx rmode).s.current_resolution_index =
      s.current_resolution_index := by
  unfold open_with_index close
  cases hcap : s.cap <;> cases hci : s.camera_index <;>
    simp [hcap, hci, open_core_keeps_resolution_index]

theorem open_cam_stores_resolution_index (env : CapEnv) (t : Nat) (s : Session)
    (idx : Int) (force rmode : Bool)
    (h0 : 0 ≤ idx) (h1 : idx < (RESOLUTIONS.length : Int)) :
    (open_cam env t s idx force rmode).s.current_resolution_index = some idx := by
  unfold open_cam
  rw [if_neg (by omega)]
  by_cases hauto : ({ s with current_resolution_index := some idx} :
      Session).camera_index = none ∧ force = false
  · rw [if_pos hauto]
    cases hf : (find_elp_camera_index env t).1 <;>
      simp [hf, open_with_index_keeps_resolution_index]
  · rw [if_neg hauto]
    simp [open_with_index_keeps_resolution_index]

theorem open_cam_always_fails (env : CapEnv) (t : Nat) (s : Session)
    (idx ci : Int) (rmode : Bool)
    (hopen : ∀ τ, env.openOk τ = false) (hci : s.camera_index = some ci)
    (h0 : 0 ≤ idx) (h1 : idx < 18) :
    open_cam env t s idx true rmode =
      ⟨false,
        { s with current_resolution_index := some idx,
                 cap := some ⟨t + (if s.cap.isSome then 1 else 0), false⟩ },
        t + (if s.cap.isSome then 1 else 0) + 1,
        (if s.cap.isSome then [CapOp.release] else []) ++ [CapOp.acquire ci]⟩ := by
  unfold open_cam
  rw [if_neg (by rw [RESOLUTIONS_length]; omega)]
  rw [if_neg (by simp)]
  unfold open_with_index close open_core
  cases hcap : s.cap <;> simp [hcap, hci, hopen]

/-- C1 (amended): calling `close` on a session any number of times, in any
state, never raises (it is a total function) and always leaves the session
with no capture handle (`is_open = false`); a second `close` is a no-op.
However, `close` does NOT reset the derived fields: `current_resolution`,
`current_format` and `current_resolution_index` keep whatever values they
had before the call. -/
theorem close_idempotent_releases_handle (t : Nat) (s : Session) :
    (close t s).s.cap = none ∧
    (close t s).s.current_resolution = s.current_resolution ∧
    (close t s).s.current_format = s.current_format ∧
    (close t s).s.current_resolution_index = s.current_resolution_index ∧
    (close t s).s.camera_index = s.camera_index ∧
    close (close t s).t (close t s).s = ⟨(), (close t s).s, (close t s).t, []⟩ := by
  cases h : s.cap <;> simp [close, h]

/-- C1 counterexample: on the open session `sFull`, whose
`current_resolution` is `some (1920, 1080, 30)`, `close` releases the
handle but leaves `current_resolution` at its old value — it is not reset
to `none`, contrary to the claim that close resets all derived fields.
(`ELPUVCCamera.close` only does `self.cap.release(); self.cap = None`.) -/
theorem close_counterexample :
    (close 0 sFull).s.cap = none ∧
    (close 0 sFull).s.current_resolution = some (1920, 1080, 30) := by
  exact ⟨rfl, rfl⟩

/-- C7: `open` with a resolution index below 0 or at least the catalog
length returns `False` immediately: the session is completely unchanged,
no tick elapses and the operation trace is empty — no capture handle is
acquired, touched or modified. -/
theorem open_invalid_index (env : CapEnv) (t : Nat) (s : Session)
    (idx : Int) (force rmode : Bool)
    (h : idx < 0 ∨ (RESOLUTIONS.length : Int) ≤ idx) :
    open_cam env t s idx force rmode = ⟨false, s, t, []⟩ := by
  unfold open_cam
  rw [if_pos h]

/-- Witness for C7 at the concrete out-of-bounds index 18 (catalog size
is 18). -/
theorem open_invalid_index_witness :
    ((18 : Int) < 0 ∨ (RESOLUTIONS.length : Int) ≤ 18) ∧
    open_cam envZero 0 sFresh 18 true false = ⟨false, sFresh, 0, []⟩ :=
  ⟨Or.inr (by decide),
    open_invalid_index envZero 0 sFresh 18 true false (Or.inr (by decide))⟩

/-- C9 (amended): operating on a session whose handle is `none` does not
raise a hard error: `get_frame` returns the ordinary failure value
`(False, None)` and `set_camera_property` returns the ordinary failure
value `False`, each leaving the session and tick unchanged and performing
no handle operation. -/
theorem closed_session_soft_failure (env : CapEnv) (t : Nat) (s : Session)
    (nm : String) (v : ℚ) (h : s.cap = none) :
    get_frame env t s = ⟨(false, none), s, t, []⟩ ∧
    set_camera_property env t s nm v = ⟨false, s, t, []⟩ := by
  unfold get_frame set_camera_property
  rw [h]
  exact ⟨rfl, rfl⟩

/-- Witness for C9 (amended) on the concrete never-opened session. -/
theorem closed_session_soft_failure_witness :
    get_frame envZero 0 sFresh = ⟨(false, none), sFresh, 0, []⟩ ∧
    set_camera_property envZero 0 sFresh gainName 5 = ⟨false, sFresh, 0, []⟩ :=
  closed_session_soft_failure envZero 0 sFresh gainName 5 rfl

/-- C9 counterexample: on the closed session `sFresh`, `get_frame` returns
the ordinary value `(False, None)` and `set_camera_property` the ordinary
value `False` — normal returns, not hard errors (the source prints
"Camera not open" and returns at `get_frame` lines 318-324 and
`set_camera_property` lines 618-620), contradicting the claim that such
calls surface as hard errors rather than ordinary failure results. -/
theorem closed_session_counterexample :
    (get_frame envZero 0 sFresh).val = (false, none) ∧
    (set_camera_property envZero 0 sFresh gainName 5).val = false ∧
    (get_frame envZero 0 sFresh).tr = [] ∧
    (set_camera_property envZero 0 sFresh gainName 5).tr = [] := by
  exact ⟨rfl, rfl, rfl, rfl⟩

/-- C10: for every in-bounds resolution index and every environment —
including environments in which every subsequent hardware interaction
fails — `open` stores the requested index into
`current_resolution_index`, and the restart-index determination with no
caller-supplied index (`restart` lines 444-448) therefore selects exactly
the index of that (possibly failed) `open`. -/
theorem open_stores_index_restart_reuses (env : CapEnv) (t : Nat)
    (s : Session) (idx : Int) (force rmode : Bool)
    (h0 : 0 ≤ idx) (h1 : idx < (RESOLUTIONS.length : Int)) :
    (open_cam env t s idx force rmode).s.current_resolution_index = some idx ∧
    restart_index none
      (open_cam env t s idx force rmode).s.current_resolution_index = idx := by
  have h := open_cam_stores_resolution_index env t s idx force rmode h0 h1
  refine ⟨h, ?_⟩
  rw [h]
  rfl

/-- Witness for C10: index 7 on the all-refusing environment (the open
fails, yet the stored index is 7 and restart would target 7). -/
theorem open_stores_index_restart_reuses_witness :
    (open_cam envZero 0 sFresh 7 true false).s.current_resolution_index = some 7 ∧
    restart_index none
      (open_cam envZero 0 sFresh 7 true false).s.current_resolution_index = 7 :=
  open_stores_index_restart_reuses envZero 0 sFresh 7 true false
    (by decide) (by decide)

/-- Unfolding of `set_camera_property` on an open session and a known
property name: the preamble checks resolved, leaving the primary attempt,
the fallback chain and the exposure special case. -/
theorem set_camera_property_unfold (env : CapEnv) (t : Nat) (s : Session)
    (h : Handle) (nm : String) (pid : Int) (v : ℚ)
    (hcap : s.cap = some h) (hop : h.opened = true)
    (hpm : property_map (pyUpper nm) = some pid) :
    set_camera_property env t s nm v =
      (if env.setOk (t + 1) pid v = true ∧
          pyAbs (env.getVal (t + 2) pid - v) < (1 : ℚ)/10 then
        ⟨true, s, t + 3, [CapOp.get pid, CapOp.set pid v, CapOp.get pid]⟩
      else
        let r := try_alternative_ids env v
          (alternative_property_map (pyUpper nm)) (t + 3)
        if r.1 = true then
          ⟨true, s, r.2.1,
            [CapOp.get pid, CapOp.set pid v, CapOp.get pid] ++ r.2.2⟩
        else if pyUpper nm = "EXPOSURE" then
          if env.setOk (r.2.1 + 4) pid v = true ∧
              (1 : ℚ)/100 < pyAbs (env.getVal (r.2.1 + 5) pid - env.getVal t pid) then
            ⟨true, s, r.2.1 + 6,
              [CapOp.get pid, CapOp.set pid v, CapOp.get pid] ++ r.2.2 ++
                (auto_exp_ids.map fun i => CapOp.set i 0) ++
                [CapOp.set pid v, CapOp.get pid]⟩
          else
            ⟨false, s, r.2.1 + 6,
              [CapOp.get pid, CapOp.set pid v, CapOp.get pid] ++ r.2.2 ++
                (auto_exp_ids.map fun i => CapOp.set i 0) ++
                [CapOp.set pid v, CapOp.get pid]⟩
        else
          ⟨false, s, r.2.1,
            [CapOp.get pid, CapOp.set pid v, CapOp.get pid] ++ r.2.2⟩) := by
  unfold set_camera_property
  rw [hcap]
  dsimp only
  rw [hop, if_neg (by simp : ¬(true = false)), hpm]

/-- C4 (amended): the primary attempt of `set_camera_property` — the case
in which the call returns after exactly the three primary handle
operations, i.e. with final tick `t + 3` — reports success if and only if
the handle's set call reported success and the read-back value differs
from the requested value by less than 0.1.  Consequently a set call that
reports success but produces no observable change (read-back equal to the
pre-set read) is reported as failed by the primary attempt whenever the
pre-set value differs from the requested value by at least 0.1; when the
pre-set value is already within 0.1 of the request such a silent no-op is
accepted as success (see the counterexample). -/
theorem set_property_primary_iff (env : CapEnv) (t : Nat) (s : Session)
    (h : Handle) (nm : String) (pid : Int) (v : ℚ)
    (hcap : s.cap = some h) (hop : h.opened = true)
    (hpm : property_map (pyUpper nm) = some pid) :
    (((set_camera_property env t s nm v).val = true ∧
        (set_camera_property env t s nm v).t = t + 3) ↔
      (env.setOk (t + 1) pid v = true ∧
        pyAbs (env.getVal (t + 2) pid - v) < (1 : ℚ)/10)) ∧
    (env.getVal (t + 2) pid = env.getVal t pid →
      (1 : ℚ)/10 ≤ pyAbs (env.getVal t pid - v) →
      ¬ ((set_camera_property env t s nm v).val = true ∧
          (set_camera_property env t s nm v).t = t + 3)) := by
  have hu := set_camera_property_unfold env t s h nm pid v hcap hop hpm
  by_cases hC : env.setOk (t + 1) pid v = true ∧
      pyAbs (env.getVal (t + 2) pid - v) < (1 : ℚ)/10
  · rw [hu, if_pos hC]
    refine ⟨⟨fun _ => hC, fun _ => ⟨rfl, rfl⟩⟩, ?_⟩
    intro h1 h2 _
    rw [h1] at hC
    exact absurd hC.2 (not_lt.mpr h2)
  · rcases hfb : try_alternative_ids env v
        (alternative_property_map (pyUpper nm)) (t + 3) with ⟨fb, t1, tr1⟩
    have hnot : ¬ ((set_camera_property env t s nm v).val = true ∧
        (set_camera_property env t s nm v).t = t + 3) := by
      cases fb with
      | true =>
        obtain ⟨k, hk, _, _, ht1⟩ := try_alternative_ids_first env v
          (alternative_property_map (pyUpper nm)) (t + 3) (by rw [hfb])
        rw [hfb] at ht1
        simp only at ht1
        have heq : set_camera_property env t s nm v =
            ⟨true, s, t1,
              [CapOp.get pid, CapOp.set pid v, CapOp.get pid] ++ tr1⟩ := by
          rw [hu, if_neg hC]
          simp [hfb]
        rw [heq]
        rintro ⟨-, hcon⟩
        simp only at hcon
        omega
      | false =>
        by_cases hexp : pyUpper nm = "EXPOSURE"
        · have ht1 : t1 = t + 3 +
              3 * (alternative_property_map (pyUpper nm)).length := by
            have := try_alternative_ids_false_t env v
              (alternative_property_map (pyUpper nm)) (t + 3) (by rw [hfb])
            rw [hfb] at this
            simpa using this
          rw [hexp] at hfb
          have ht : (set_camera_property env t s nm v).t = t1 + 6 := by
            rw [hu, if_neg hC, hexp]
            simp [hfb]
            split <;> rfl
          rintro ⟨-, hcon⟩
          rw [ht] at hcon
          omega
        · have hval : (set_camera_property env t s nm v).val = false := by
            rw [hu, if_neg hC]
            simp [hfb, hexp]

          rintro ⟨hcon, -⟩
          rw [hval] at hcon
          exact absurd hcon (by simp)
    exact ⟨⟨fun hl => absurd hl hnot, fun hr => absurd hr hC⟩, fun _ _ => hnot⟩

/-- C4 counterexample: with the handle `envNoChange` (every set call
reports success, every get returns 5 forever — the set produces no
observable value change), `set_camera_property` on the open session
reports SUCCESS for setting GAIN to 5, because the unchanged read-back
happens to lie within 0.1 of the requested value.  This contradicts the
claim that a success-reporting set call with no observable value change
is always reported as failed. -/
theorem set_property_silent_noop_success :
    (set_camera_property envNoChange 0 sOpen0 gainName 5).val = true ∧
    envNoChange.getVal 2 CAP_PROP_GAIN = envNoChange.getVal 0 CAP_PROP_GAIN := by
  refine ⟨?_, rfl⟩
  rw [set_camera_property_unfold envNoChange 0 sOpen0 ⟨0, true⟩ gainName
    CAP_PROP_GAIN 5 rfl rfl rfl]
  rw [if_pos ⟨rfl, by norm_num [pyAbs, envNoChange]⟩]

/-- Witness for C4 (amended): a primary set of GAIN to 7 whose read-back
at tick 2 returns 7 is reported as success with final tick 3. -/
theorem set_property_primary_iff_witness :
    ((set_camera_property envPrimaryLands 0 sOpen0 gainName 7).val = true ∧
      (set_camera_property envPrimaryLands 0 sOpen0 gainName 7).t = 0 + 3) :=
  (set_property_primary_iff envPrimaryLands 0 sOpen0 ⟨0, true⟩ gainName
    CAP_PROP_GAIN 7 rfl rfl rfl).1.mpr ⟨rfl, by norm_num [pyAbs, envPrimaryLands]⟩


/-- C3 counterexample: with the handle `envAltNoSet`, the primary set
attempt for GAIN fails (its set call at tick 1 reports failure), and the
FIRST fallback identifier (14, attempted via get/set/get at ticks 3-5)
shows a readback change larger than 0.01 — its pre-set read at tick 3 is
0 and its readback at tick 5 is 1.  The claim ("declares success at the
first identifier whose readback differs from that pre-set value by more
than 0.01") therefore predicts success, but `set_camera_property` reports
FAILURE, because the source additionally requires the fallback set call
itself to return `True` and this handle's set call at tick 4 returns
`False`. -/
theorem set_property_fallback_counterexample :
    (set_camera_property envAltNoSet 0 sOpen0 gainName 5).val = false ∧
    alternative_property_map (pyUpper gainName) = [14, 5, 105, 81] ∧
    (1 : ℚ)/100 < pyAbs (envAltNoSet.getVal 5 14 - envAltNoSet.getVal 3 14) ∧
    envAltNoSet.setOk 1 CAP_PROP_GAIN 5 = false ∧
    envAltNoSet.setOk 4 14 5 = false := by
  have hg : alternative_property_map (pyUpper gainName) = [14, 5, 105, 81] := rfl
  refine ⟨?_, hg, by norm_num [pyAbs, envAltNoSet], rfl, rfl⟩
  rw [set_camera_property_unfold envAltNoSet 0 sOpen0 ⟨0, true⟩ gainName
    CAP_PROP_GAIN 5 rfl rfl rfl]
  rw [if_neg (fun hcon => absurd hcon.1 (by decide))]
  have hnot : ¬ ((try_alternative_ids envAltNoSet 5
      (alternative_property_map (pyUpper gainName)) (0 + 3)).1 = true) := by
    rw [try_alternative_ids_val]
    rintro ⟨i, hi, hok⟩
    rw [hg] at hi hok
    simp only [List.length_cons, List.length_nil] at hi
    interval_cases i <;>
      norm_num [alt_attempt_ok, envAltNoSet, pyAbs, List.getD] at hok
  have hfb : (try_alternative_ids envAltNoSet 5
      (alternative_property_map (pyUpper gainName)) (0 + 3)).1 = false := by
    cases hb : (try_alternative_ids envAltNoSet 5
        (alternative_property_map (pyUpper gainName)) (0 + 3)).1
    · rfl
    · exact absurd hb hnot
  simp only [hfb]
  rw [if_neg (by simp)]
  rw [if_neg (by decide : ¬(pyUpper gainName = "EXPOSURE"))]

/-- C3 (amended): for a known non-exposure property whose primary set
attempt fails, `set_camera_property` runs the fallback chain in registry
order, one identifier every three ticks starting at `t + 3`: it reports
success if and only if some fallback attempt succeeds — where an attempt
on identifier `a` at tick `τ` succeeds when the SET CALL REPORTS SUCCESS
and the readback at `τ + 2` differs from the identifier's own pre-set
read at `τ` by more than 0.01 — and on success it stops at the first
succeeding identifier `k`, having attempted exactly the identifiers
before and including `k` (final tick `t + 3 + 3(k+1)`); when every
fallback is exhausted with no detected change it reports failure after
attempting the whole chain (final tick `t + 3 + 3·length`).  The claim's
amendment: the acceptance test requires the set call to report success in
addition to the readback moving by more than 0.01. -/
theorem set_property_fallback_chain (env : CapEnv) (t : Nat) (s : Session)
    (h : Handle) (nm : String) (pid : Int) (v : ℚ)
    (hcap : s.cap = some h) (hop : h.opened = true)
    (hpm : property_map (pyUpper nm) = some pid)
    (hexp : pyUpper nm ≠ "EXPOSURE")
    (hprim : ¬ (env.setOk (t + 1) pid v = true ∧
      pyAbs (env.getVal (t + 2) pid - v) < (1 : ℚ)/10)) :
    ((set_camera_property env t s nm v).val = true ↔
      ∃ i, i < (alternative_property_map (pyUpper nm)).length ∧
        alt_attempt_ok env v ((alternative_property_map (pyUpper nm)).getD i 0)
          (t + 3 + 3 * i)) ∧
    ((set_camera_property env t s nm v).val = true →
      ∃ k, k < (alternative_property_map (pyUpper nm)).length ∧
        alt_attempt_ok env v ((alternative_property_map (pyUpper nm)).getD k 0)
          (t + 3 + 3 * k) ∧
        (∀ j, j < k → ¬ alt_attempt_ok env v
          ((alternative_property_map (pyUpper nm)).getD j 0) (t + 3 + 3 * j)) ∧
        (set_camera_property env t s nm v).t = t + 3 + 3 * (k + 1)) ∧
    ((set_camera_property env t s nm v).val = false →
      (set_camera_property env t s nm v).t =
        t + 3 + 3 * (alternative_property_map (pyUpper nm)).length) := by
  have hu := set_camera_property_unfold env t s h nm pid v hcap hop hpm
  rw [hu, if_neg hprim]
  rcases hfb : try_alternative_ids env v
      (alternative_property_map (pyUpper nm)) (t + 3) with ⟨fb, t1, tr1⟩
  cases fb with
  | true =>
    have hex : ∃ i, i < (alternative_property_map (pyUpper nm)).length ∧
        alt_attempt_ok env v ((alternative_property_map (pyUpper nm)).getD i 0)
          (t + 3 + 3 * i) := by
      have := (try_alternative_ids_val env v
        (alternative_property_map (pyUpper nm)) (t + 3)).mp (by rw [hfb])
      obtain ⟨i, hi, hok⟩ := this
      exact ⟨i, hi, hok⟩
    obtain ⟨k, hk, hok, hmin, ht1⟩ := try_alternative_ids_first env v
      (alternative_property_map (pyUpper nm)) (t + 3) (by rw [hfb])
    rw [hfb] at ht1
    simp only at ht1
    simp only [hfb]
    refine ⟨⟨fun _ => hex, fun _ => by simp⟩, fun _ => ⟨k, hk, hok, hmin, ?_⟩,
      fun hcon => absurd hcon (by simp)⟩
    simp
    omega
  | false =>
    have ht1 : t1 = t + 3 + 3 * (alternative_property_map (pyUpper nm)).length := by
      have := try_alternative_ids_false_t env v
        (alternative_property_map (pyUpper nm)) (t + 3) (by rw [hfb])
      rw [hfb] at this
      simpa using this
    have hnotex : ¬ ∃ i, i < (alternative_property_map (pyUpper nm)).length ∧
        alt_attempt_ok env v ((alternative_property_map (pyUpper nm)).getD i 0)
          (t + 3 + 3 * i) := by
      intro hex
      have := (try_alternative_ids_val env v
        (alternative_property_map (pyUpper nm)) (t + 3)).mpr
        (by obtain ⟨i, hi, hok⟩ := hex; exact ⟨i, hi, hok⟩)
      rw [hfb] at this
      simp at this
    simp only [hfb]
    rw [if_neg (by simp), if_neg hexp]
    refine ⟨⟨fun hcon => absurd hcon (by simp), fun hex => absurd hex hnotex⟩,
      fun hcon => absurd hcon (by simp), fun _ => ?_⟩
    simp only
    omega

/-- Witness for C3 (amended): GAIN with `envAltSecond` — the primary
attempt fails, the first fallback (identifier 14) shows no change, the
second fallback (identifier 5, attempted at ticks 6-8) both reports set
success and shows a readback change of 3 — so `set_camera_property`
reports success. -/
theorem set_property_fallback_chain_witness :
    (set_camera_property envAltSecond 0 sOpen0 gainName 9).val = true :=
  (set_property_fallback_chain envAltSecond 0 sOpen0 ⟨0, true⟩ gainName
    CAP_PROP_GAIN 9 rfl rfl rfl (by decide)
    (fun hcon => by norm_num [pyAbs, envAltSecond] at hcon)).1.mpr
    ⟨1, by decide, rfl, by norm_num [pyAbs, envAltSecond]⟩

/-- C8: for the EXPOSURE property, when the primary attempt fails and all
five fallback identifiers (15, 6, 106, 4, 204) are exhausted with no
detected change, `set_camera_property` sets each identifier of the
`auto_exp_ids` list (21 — which is `cv2.CAP_PROP_AUTO_EXPOSURE` — then
21, 39, 1024) to the manual-mode value 0, retries the primary exposure
set exactly once (the single `set 15 v` at tick `t + 22` followed by one
readback), and reports success if and only if that retry's set call
reports success and the readback differs from the value read at the very
start of the call by more than 0.01; otherwise it reports failure.  The
trace equation shows the complete operation sequence, with exactly one
retry. -/
theorem set_property_exposure_retry (env : CapEnv) (t : Nat) (s : Session)
    (h : Handle) (v : ℚ)
    (hcap : s.cap = some h) (hop : h.opened = true)
    (hprim : ¬ (env.setOk (t + 1) CAP_PROP_EXPOSURE v = true ∧
      pyAbs (env.getVal (t + 2) CAP_PROP_EXPOSURE - v) < (1 : ℚ)/10))
    (hfall : ∀ i, i < 5 → ¬ alt_attempt_ok env v
      ((alternative_property_map exposureName).getD i 0) (t + 3 + 3 * i)) :
    ((set_camera_property env t s exposureName v).val = true ↔
      (env.setOk (t + 22) CAP_PROP_EXPOSURE v = true ∧
        (1 : ℚ)/100 < pyAbs (env.getVal (t + 23) CAP_PROP_EXPOSURE -
          env.getVal t CAP_PROP_EXPOSURE))) ∧
    (set_camera_property env t s exposureName v).t = t + 24 ∧
    (set_camera_property env t s exposureName v).tr =
      [CapOp.get 15, CapOp.set 15 v, CapOp.get 15,
       CapOp.get 15, CapOp.set 15 v, CapOp.get 15,
       CapOp.get 6, CapOp.set 6 v, CapOp.get 6,
       CapOp.get 106, CapOp.set 106 v, CapOp.get 106,
       CapOp.get 4, CapOp.set 4 v, CapOp.get 4,
       CapOp.get 204, CapOp.set 204 v, CapOp.get 204,
       CapOp.set 21 0, CapOp.set 21 0, CapOp.set 39 0, CapOp.set 1024 0,
       CapOp.set 15 v, CapOp.get 15] := by
  have hup : pyUpper exposureName = exposureName := rfl
  have hA : alternative_property_map exposureName = [15, 6, 106, 4, 204] := rfl
  have hu := set_camera_property_unfold env t s h exposureName
    CAP_PROP_EXPOSURE v hcap hop rfl
  rw [hu, if_neg hprim, hup, hA]
  have hnot : ¬ ((try_alternative_ids env v [15, 6, 106, 4, 204] (t + 3)).1
      = true) := by
    rw [try_alternative_ids_val]
    rintro ⟨i, hi, hok⟩
    have hi5 : i < 5 := by simpa using hi
    refine hfall i hi5 ?_
    rw [hA]
    exact hok
  rcases hfb : try_alternative_ids env v [15, 6, 106, 4, 204] (t + 3)
    with ⟨fb, t1, tr1⟩
  cases fb with
  | true => exact absurd (by rw [hfb]) hnot
  | false =>
    have ht1 : t1 = t + 18 := by
      have := try_alternative_ids_false_t env v [15, 6, 106, 4, 204] (t + 3)
        (by rw [hfb])
      rw [hfb] at this
      simp at this
      omega
    have htr : tr1 = alt_ops v [15, 6, 106, 4, 204] := by
      have := try_alternative_ids_false_tr env v [15, 6, 106, 4, 204] (t + 3)
        (by rw [hfb])
      rw [hfb] at this
      simpa using this
    simp only [hfb]
    rw [if_neg (by simp), if_pos (show exposureName = "EXPOSURE" from rfl)]
    rw [ht1, htr]
    have e1 : t + 18 + 4 = t + 22 := by omega
    have e2 : t + 18 + 5 = t + 23 := by omega
    have e3 : t + 18 + 6 = t + 24 := by omega
    rw [e1, e2, e3]
    refine ⟨?_, ?_, ?_⟩
    · split
      · rename_i hR
        exact iff_of_true rfl hR
      · rename_i hR
        exact iff_of_false (by simp) hR
    · split <;> rfl
    · split <;>
        simp [alt_ops, auto_exp_ids, CAP_PROP_AUTO_EXPOSURE, CAP_PROP_EXPOSURE]

/-- Witness for C8: `envExpRetry` — primary and all five fallbacks show no
change, the post-retry readback at tick 23 returns 5 while the initial
read returned 0, so the retry is accepted and the call reports success at
final tick 24. -/
theorem set_property_exposure_retry_witness :
    (set_camera_property envExpRetry 0 sOpen0 exposureName 5).val = true ∧
    (set_camera_property envExpRetry 0 sOpen0 exposureName 5).t = 0 + 24 := by
  have H := set_property_exposure_retry envExpRetry 0 sOpen0 ⟨0, true⟩ 5 rfl rfl
    (fun hcon => by norm_num [pyAbs, envExpRetry] at hcon)
    (fun i hi5 => by
      intro hok
      simp only [alt_attempt_ok] at hok
      interval_cases i <;> norm_num [pyAbs, envExpRetry] at hok)
  exact ⟨H.1.mpr ⟨rfl, by norm_num [pyAbs, envExpRetry]⟩, H.2.1⟩

/-- C2: on a successful open (capture acquired and opened, pre-settings
test frame, validation frame, and — in recording mode — all five
stability frames succeed), `open` stores the VALIDATION FRAME's
dimensions in `current_resolution` (paired with the fps read back from
the handle) whenever they differ from the width/height read back from the
handle's properties; when the frame agrees with the read-back values,
`current_resolution` equals the read-back values. -/
theorem open_frame_authoritative (env : CapEnv) (t : Nat) (s : Session)
    (ci : Int) (ridx : Nat) (rmode : Bool)
    (hopen : env.openOk t = true)
    (hr1 : env.readOk (t + 1) = true)
    (hr2 : env.readOk (t + 9) = true)
    (hst : rmode = true → ∀ j, j < 5 → env.readOk (t + 10 + j) = true) :
    (open_core env t s ci ridx rmode).val = true ∧
    (((env.frameW (t + 9) : Int) ≠
        pyInt (env.getVal (t + 6) CAP_PROP_FRAME_WIDTH) ∨
      (env.frameH (t + 9) : Int) ≠
        pyInt (env.getVal (t + 7) CAP_PROP_FRAME_HEIGHT)) →
      (open_core env t s ci ridx rmode).s.current_resolution =
        some ((env.frameW (t + 9) : Int), (env.frameH (t + 9) : Int),
          pyInt (env.getVal (t + 8) CAP_PROP_FPS))) ∧
    ((env.frameW (t + 9) : Int) =
        pyInt (env.getVal (t + 6) CAP_PROP_FRAME_WIDTH) ∧
      (env.frameH (t + 9) : Int) =
        pyInt (env.getVal (t + 7) CAP_PROP_FRAME_HEIGHT) →
      (open_core env t s ci ridx rmode).s.current_resolution =
        some (pyInt (env.getVal (t + 6) CAP_PROP_FRAME_WIDTH),
          pyInt (env.getVal (t + 7) CAP_PROP_FRAME_HEIGHT),
          pyInt (env.getVal (t + 8) CAP_PROP_FPS))) := by
  unfold open_core
  cases rmode with
  | false =>
    simp only [hopen, hr1, hr2]
    norm_num
    constructor
    · intro hne
      rw [if_pos hne]
    · intro hw hh
      rw [if_neg (by push_neg; exact ⟨hw, hh⟩)]
  | true =>
    have hloop := stability_loop_all_ok env 5 (t + 10) (fun j hj => hst rfl j hj)
    simp only [hopen, hr1, hr2, hloop]
    norm_num
    constructor
    · intro hne
      rw [if_pos hne]
    · intro hw hh
      rw [if_neg (by push_neg; exact ⟨hw, hh⟩)]

/-- Witness for C2: with the cooperative handle `envOk` (frames are
1280x720 but the properties report 1920x1080 at 30 fps) an open at
resolution index 11 succeeds and records the frame-authoritative
resolution (1280, 720, 30). -/
theorem open_frame_authoritative_witness :
    (open_core envOk 0 sFresh 0 11 false).val = true ∧
    (open_core envOk 0 sFresh 0 11 false).s.current_resolution =
      some (1280, 720, 30) := by
  have H := open_frame_authoritative envOk 0 sFresh 0 11 false rfl rfl rfl
    (fun hcon => by exact absurd hcon (by simp))
  refine ⟨H.1, ?_⟩
  have := H.2.1 (by decide)
  simpa using this

/-- Helper for C5: an open on a session that holds no capture handle
begins with a fresh `cv2.VideoCapture` acquisition — the first handle
operation of `open` (after the no-op close) is `acquire`. -/
theorem open_with_index_fresh (env : CapEnv) (t : Nat) (s : Session)
    (ci : Int) (ridx : Nat) (rmode : Bool)
    (hcap : s.cap = none) (hci : s.camera_index = some ci) :
    (open_with_index env t s ridx rmode).tr.head? = some (CapOp.acquire ci) := by
  unfold open_with_index close
  rw [hcap]
  dsimp only
  rw [hci]
  simpa using open_core_tr_first env t s ci ridx rmode

/-- C5 counterexample: with `envRead14Fails`, every read succeeds except
the one at tick 14.  In the recording-mode open started at tick 0 on the
capless session `sFresh` (camera index forced), the validation frame is
read at tick 9 and the stability loop reads at ticks 10 onward; the FOUR
additional frames at ticks 10-13 all succeed, so under the claim ("pulls
exactly four additional consecutive frames") this open would succeed —
but the source pulls a FIFTH additional frame (`for _ in range(5)` in
`ELPUVCCamera.open`), which fails at tick 14, and the whole open fails
(with the handle released). -/
theorem open_recording_counterexample :
    (open_cam envRead14Fails 0 sFresh 11 true true).val = false ∧
    envRead14Fails.readOk 9 = true ∧
    envRead14Fails.readOk 10 = true ∧ envRead14Fails.readOk 11 = true ∧
    envRead14Fails.readOk 12 = true ∧ envRead14Fails.readOk 13 = true ∧
    envRead14Fails.readOk 14 = false ∧
    (open_cam envRead14Fails 0 sFresh 11 true true).s.cap = none := by
  refine ⟨by decide, rfl, rfl, rfl, rfl, rfl, rfl, by decide⟩

/-- C5 (amended): in recording mode, after a successful validation frame
the open pulls up to FIVE additional consecutive frames; if the
`k+1`-st of them fails (`k < 5`, the previous `k` succeeding), the whole
open fails, the handle is released before returning (`cap = none`, final
tick `t + 12 + k`: exactly `k + 1` stability reads then one release), and
a subsequent open on the resulting session performs a fresh handle
acquisition as its first handle operation rather than reusing a stale
handle. -/
theorem open_recording_stability_gate (env : CapEnv) (t : Nat) (s : Session)
    (ci : Int) (ridx : Nat) (k : Nat)
    (hci : s.camera_index = some ci)
    (hopen : env.openOk t = true)
    (hr1 : env.readOk (t + 1) = true)
    (hr2 : env.readOk (t + 9) = true)
    (hk : k < 5)
    (hpre : ∀ j, j < k → env.readOk (t + 10 + j) = true)
    (hfail : env.readOk (t + 10 + k) = false) :
    (open_core env t s ci ridx true).val = false ∧
    (open_core env t s ci ridx true).s.cap = none ∧
    (open_core env t s ci ridx true).t = t + 12 + k ∧
    (open_with_index env (open_core env t s ci ridx true).t
      (open_core env t s ci ridx true).s ridx true).tr.head? =
      some (CapOp.acquire ci) := by
  have hloop := stability_loop_fails env 5 (t + 10) k hk hpre hfail
  have hcam : (open_core env t s ci ridx true).s.camera_index = some ci := by
    rw [open_core_keeps_camera_index]
    exact hci
  have hval : (open_core env t s ci ridx true).val = false := by
    unfold open_core
    simp [hopen, hr1, hr2, hloop]
  have hcap2 : (open_core env t s ci ridx true).s.cap = none := by
    unfold open_core
    simp [hopen, hr1, hr2, hloop]
  have ht : (open_core env t s ci ridx true).t = t + 12 + k := by
    unfold open_core
    simp [hopen, hr1, hr2, hloop]
    omega
  exact ⟨hval, hcap2, ht,
    open_with_index_fresh env _ _ ci ridx true hcap2 hcam⟩

/-- Witness for C5 (amended): `envRead12Fails` fails the third
stability-check read (tick 12, `k = 2`); the recording-mode open fails
with the handle released at final tick 14. -/
theorem open_recording_stability_gate_witness :
    (open_core envRead12Fails 0 sFresh 0 11 true).val = false ∧
    (open_core envRead12Fails 0 sFresh 0 11 true).s.cap = none ∧
    (open_core envRead12Fails 0 sFresh 0 11 true).t = 0 + 12 + 2 := by
  have H := open_recording_stability_gate envRead12Fails 0 sFresh 0 11 2
    rfl rfl rfl rfl (by omega) (fun j hj => by interval_cases j <;> rfl) rfl
  exact ⟨H.1, H.2.1, H.2.2.1⟩

theorem close_s_eq (t : Nat) (s : Session) :
    (close t s).s = { s with cap := none } := by
  cases s with
  | mk a b c d e f => cases b <;> simp [close]

theorem close_tr_no_acquire (t : Nat) (s : Session) :
    acquire_count (close t s).tr = 0 := by
  cases h : s.cap <;> simp [close, h, acquire_count]

theorem acquire_count_append (a b : List CapOp) :
    acquire_count (a ++ b) = acquire_count a + acquire_count b :=
  List.countP_append _ _ _

/-- The three-attempt loop of `restart`, under a handle that always fails
to open: every attempt performs exactly one acquisition and fails, so the
loop returns failure with exactly `n` acquisitions for fuel `n`. -/
theorem restart_loop_always_fails (env : CapEnv) (ci : Int) (ri : Int)
    (rmode : Bool) (hopen : ∀ τ, env.openOk τ = false)
    (h0 : 0 ≤ ri) (h1 : ri < 18) :
    ∀ (n : Nat) (first : Bool) (t : Nat) (s : Session),
      s.camera_index = some ci →
      ∃ s2 t2 tr2,
        restart_loop env (some ci) ri rmode false n first t s =
          Except.ok (false, s2, t2, tr2) ∧
        acquire_count tr2 = n ∧ s2.camera_index = some ci := by
  intro n
  induction n with
  | zero =>
    intro first t s hs
    exact ⟨s, t, [], rfl, rfl, hs⟩
  | succ m ih =>
    intro first t s hs
    have hopen1 := open_cam_always_fails env t
      { s with camera_index := some ci } ri ci rmode hopen (by simp) h0 h1
    obtain ⟨s2, t2, tr2, hloop, hcount, hcam2⟩ := ih false
      (t + (if s.cap.isSome then 1 else 0) + 1)
      { s with camera_index := some ci, cap := some ⟨t + (if s.cap.isSome then 1 else 0), false⟩, current_resolution_index := some ri }
      (by simp)
    refine ⟨s2, t2,
      ((if s.cap.isSome then [CapOp.release] else []) ++ [CapOp.acquire ci])
        ++ tr2, ?_, ?_, hcam2⟩
    · simp only [restart_loop]
      rw [if_neg (by simp)]
      rw [hopen1]
      dsimp only
      rw [if_neg (by simp : ¬(false = true))]
      rw [hloop]
    · rw [acquire_count_append, acquire_count_append, hcount]
      cases hc : s.cap.isSome <;> simp [hc, acquire_count] <;> omega

/-- C6 (amended): with a handle that always fails to open, a soft
`restart` (no hard reset) on a session with a resolved camera index makes
exactly 3 reopen attempts and then — ONLY when the target resolution
index differs from the default index 11 — one final attempt at index 11,
acquiring the capture exactly 3 times (target index 11) or exactly 4
times (any other target index), and returns failure; it never loops
indefinitely. -/
theorem restart_bounded (env : CapEnv) (t : Nat) (s : Session) (ci : Int)
    (rarg : Option Int) (rmode : Bool)
    (hopen : ∀ τ, env.openOk τ = false)
    (hci : s.camera_index = some ci)
    (h0 : 0 ≤ restart_index rarg s.current_resolution_index)
    (h1 : restart_index rarg s.current_resolution_index < 18) :
    ∃ s3 t3 tr3,
      restart env t s rarg rmode false = Except.ok (false, s3, t3, tr3) ∧
      acquire_count tr3 =
        (if restart_index rarg s.current_resolution_index = 11 then 3 else 4) := by
  obtain ⟨s2, t2, tr2, hloop, hcount, hcam2⟩ :=
    restart_loop_always_fails env ci
      (restart_index rarg s.current_resolution_index) rmode hopen h0 h1 3 true
      (close t s).t (close t s).s
      (by rw [close_s_eq]; simpa using hci)
  unfold restart
  rw [hci]
  dsimp only
  rw [if_neg (by simp : ¬(false = true))]
  dsimp only
  rw [hloop]
  dsimp only
  rw [if_neg (by simp : ¬(false = true))]
  by_cases hri : restart_index rarg s.current_resolution_index = 11
  · rw [if_neg (by omega)]
    refine ⟨s2, t2, _, rfl, ?_⟩
    rw [acquire_count_append, acquire_count_append, close_tr_no_acquire,
      hcount, if_pos hri]
    simp [acquire_count]
  · rw [if_pos hri]
    have hfinal := open_cam_always_fails env t2 s2 11 ci rmode hopen hcam2
      (by omega) (by omega)
    rw [hfinal]
    refine ⟨_, _, _, rfl, ?_⟩
    rw [if_neg hri]
    rw [acquire_count_append, acquire_count_append, acquire_count_append,
      close_tr_no_acquire, hcount]
    dsimp only
    have hone : acquire_count ((if s2.cap.isSome then [CapOp.release] else [])
        ++ [CapOp.acquire ci]) = 1 := by
      cases hc : s2.cap.isSome <;> simp [hc, acquire_count]
    have hnil : acquire_count ([] : List CapOp) = 0 := rfl
    rw [hone, hnil]

/-- C6 counterexample: on the session `sIdx11` (whose remembered
resolution index is the default 11) with a handle that always fails to
open, a soft `restart` with no resolution argument targets index 11 and
makes exactly 3 acquisition attempts — there is NO additional final
attempt at the default index, contradicting the claim that restart always
makes 3 attempts plus one final default-resolution attempt (3 + 1 = 4)
for every resolution index including the default one. -/
theorem restart_no_final_at_default :
    (restart envZero 0 sIdx11 none false false).toOption.map
      (fun r => (r.1, acquire_count r.2.2.2)) = some (false, 3) ∧
    restart_index none sIdx11.current_resolution_index = 11 := by
  exact ⟨by decide, rfl⟩

/-- Witness for C6 (amended): the always-failing handle with target index
5 (≠ 11): restart fails after exactly 4 acquisitions. -/
theorem restart_bounded_witness :
    ∃ s3 t3 tr3,
      restart envZero 0 sIdx5 none false false = Except.ok (false, s3, t3, tr3) ∧
      acquire_count tr3 =
        (if restart_index none sIdx5.current_resolution_index = 11
          then 3 else 4) :=
  restart_bounded envZero 0 sIdx5 0 none false (fun _ => rfl) rfl
    (by decide) (by decide)

end ELPCam
